import Mathlib

/-!
Verification of the realtime-synchronization core of the echo-chat client.

The embedded code is the `WelcomeComponent` of the chat front-end: its
`handleRealtimeMessage` callback (dispatching a `"Chats"` cache invalidation
and, for every loaded chat record whose `_id` equals the envelope's `chatId`,
an `appendLatestChat` store action, all inside a try/catch), and its
`useEffect`-managed binding of that callback to the `"realtime"` socket event.

The `appendLatestChat` reducer and the React/socket lifecycle primitives are
not part of the embedded sources; those are modelled from the specification
and are marked as such in their doc comments.
-/

/-- A chat-summary record, as read from the store (`ChatTypes`): identifier,
last-message preview text and activity timestamp. -/
structure ChatTypes where
  _id : String
  lastMessage : String
  updatedAt : Nat
  deriving DecidableEq, Repr

/-- A wire-level realtime message envelope (`MessageTypes`).  Every field is
optional at the wire level, so malformed envelopes (missing `chatId` or body)
are representable. -/
structure MessageTypes where
  chatId : Option String
  text : Option String
  sender : Option String
  ts : Option Nat
  deriving DecidableEq, Repr

/-- An action dispatched by the handler: either a cache staleness signal for a
set of tag names, or an `appendLatestChat` store action carrying a chat
record. -/
inductive HandlerAction where
  | invalidateTags (tags : List String)
  | appendLatest (chat : ChatTypes)
  deriving DecidableEq, Repr

/-- The try-block of `handleRealtimeMessage`: dispatch
`api.util.invalidateTags(["Chats"])`, then for every loaded chat whose `_id`
equals `msg.chatId` dispatch `appendLatestChat(chat)`.  The JavaScript
comparison `chat._id === msg.chatId` is false whenever `msg.chatId` is absent,
which the `some` on the right models.  None of the operations in the block can
fail, so the body always returns `Except.ok`. -/
def handleRealtimeBody (chats : List ChatTypes) (msg : MessageTypes) :
    Except String (List HandlerAction) :=
  Except.ok (HandlerAction.invalidateTags ["Chats"] ::
    (chats.filter (fun c => msg.chatId = some c._id)).map HandlerAction.appendLatest)

/-- The catch-clause of `handleRealtimeMessage`: a failure of the body is
turned into a `console.error` log line and an empty action list; it is never
re-thrown. -/
def handlerCatch (r : Except String (List HandlerAction)) :
    List HandlerAction × List String :=
  match r with
  | Except.ok acts => (acts, [])
  | Except.error e => ([], ["Failed to handle real-time message: " ++ e])

/-- `handleRealtimeMessage`: run the try-block and catch any failure.  Returns
the list of dispatched actions together with the list of logged error lines. -/
def handleRealtimeMessage (chats : List ChatTypes) (msg : MessageTypes) :
    List HandlerAction × List String :=
  handlerCatch (handleRealtimeBody chats msg)

/-- Modelled from the spec: the `appendLatestChat` reducer of the
`LatestChatSlice` store module, whose source is not among the embedded files.
Per the spec it moves the given record to the most-recent (front) position
without removing or duplicating any record, keeping exactly one record per
chat identifier. -/
def appendLatestChat (store : List ChatTypes) (chat : ChatTypes) :
    List ChatTypes :=
  chat :: store.filter (fun c => c._id ≠ chat._id)

/-- Effect of one dispatched action on the chat-summary store: an
invalidation does not touch the store, an `appendLatestChat` action applies
the reducer. -/
def applyAction (store : List ChatTypes) : HandlerAction → List ChatTypes
  | HandlerAction.invalidateTags _ => store
  | HandlerAction.appendLatest c => appendLatestChat store c

/-- The store after one invocation of the handler: the actions it dispatches,
computed from the pre-state, applied in dispatch order. -/
def runHandler (store : List ChatTypes) (msg : MessageTypes) :
    List ChatTypes :=
  (handleRealtimeMessage store msg).1.foldl applyAction store

/-- Number of staleness signals for the `"Chats"` tag in a dispatched action
list. -/
def chatsSignalCount (acts : List HandlerAction) : Nat :=
  acts.countP (fun a =>
    match a with
    | HandlerAction.invalidateTags tags => tags.contains "Chats"
    | HandlerAction.appendLatest _ => false)

/-- Number of records with the given identifier in the store. -/
def chatCount (store : List ChatTypes) (cid : String) : Nat :=
  (store.filter (fun c => c._id = cid)).length

/-- State of the `"realtime"` event registration on the socket: the handlers
currently bound (socket listeners are kept in registration order; each mount
of the component creates a fresh handler closure, identified here by a
number), together with the log of handler invocations performed so far. -/
structure SocketState where
  bindings : List Nat
  delivered : List (Nat × MessageTypes)
  deriving DecidableEq, Repr

/-- Modelled from the spec: the connection primitive (not among the embedded
files).  `emit` delivers one inbound envelope to exactly the handlers bound at
delivery time; `bind` (the socket's subscribe-by-event-name operation) appends
a listener; `unbind` removes every binding of the given listener and is the
only cancellation mechanism, effective immediately. -/
inductive SockEv where
  | emit (m : MessageTypes)
  | bind (h : Nat)
  | unbind (h : Nat)
  deriving DecidableEq, Repr

/-- One step of the socket model on an event. -/
def sockStep (s : SocketState) : SockEv → SocketState
  | SockEv.emit m =>
      { s with delivered := s.delivered ++ s.bindings.map (fun h => (h, m)) }
  | SockEv.bind h => { s with bindings := s.bindings ++ [h] }
  | SockEv.unbind h => { s with bindings := s.bindings.filter (fun x => x ≠ h) }

/-- Run the socket model over a sequence of events. -/
def sockRun (s : SocketState) (evs : List SockEv) : SocketState :=
  evs.foldl sockStep s

/-- The effect body of `WelcomeComponent`'s `useEffect`: bind the freshly
created `handleRealtimeMessage` closure to the `"realtime"` event
(`socket?.on("realtime", handleRealtimeMessage)`). -/
def effectBind (s : SocketState) (h : Nat) : SocketState :=
  sockStep s (SockEv.bind h)

/-- The effect cleanup of `WelcomeComponent`'s `useEffect`: unbind that same
closure (`socket?.off("realtime", handleRealtimeMessage)`). -/
def effectCleanup (s : SocketState) (h : Nat) : SocketState :=
  sockStep s (SockEv.unbind h)

/-- Modelled from the spec: React's effect lifecycle (not among the embedded
files) re-runs an effect whose dependencies changed by first invoking the
previous run's cleanup, then the effect body with a fresh handler closure. -/
def effectRerun (s : SocketState) (prev next : Nat) : SocketState :=
  effectBind (effectCleanup s prev) next

/-- The handler always succeeds and dispatches the invalidation followed by
one `appendLatestChat` per matching record, logging nothing. -/
lemma handleRealtimeMessage_actions (chats : List ChatTypes) (msg : MessageTypes) :
    handleRealtimeMessage chats msg =
      (HandlerAction.invalidateTags ["Chats"] ::
        (chats.filter (fun c => msg.chatId = some c._id)).map HandlerAction.appendLatest,
       []) := rfl

/-- The store after one invocation is the fold of the reducer over the
matching records. -/
lemma runHandler_eq (chats : List ChatTypes) (msg : MessageTypes) :
    runHandler chats msg =
      (chats.filter (fun c => msg.chatId = some c._id)).foldl appendLatestChat chats := by
  simp [runHandler, handleRealtimeMessage_actions, List.foldl_map, applyAction]

/-- The reducer leaves exactly one record with the appended record's
identifier and does not change the count of any other identifier. -/
lemma chatCount_appendLatestChat (s : List ChatTypes) (c : ChatTypes) (cid : String) :
    chatCount (appendLatestChat s c) cid = if c._id = cid then 1 else chatCount s cid := by
  by_cases h : c._id = cid
  · subst h
    simp [chatCount, appendLatestChat, List.filter_filter]
  · rw [chatCount, appendLatestChat, List.filter_cons_of_neg (by simp [h]),
      List.filter_filter]
    have hcongr : ∀ a ∈ s,
        (decide (a._id = cid) && decide (a._id ≠ c._id)) = decide (a._id = cid) := by
      intro a _
      by_cases ha : a._id = cid
      · have hne : cid ≠ c._id := fun hh => h hh.symm
        simp [ha, hne]
      · simp [ha]
    rw [List.filter_congr hcongr, chatCount, if_neg h]

/-- Folding the reducer over any list of records preserves the
one-record-for-`cid` property. -/
lemma foldl_appendLatestChat_chatCount (ms : List ChatTypes) (s : List ChatTypes)
    (cid : String) (h : chatCount s cid = 1) :
    chatCount (ms.foldl appendLatestChat s) cid = 1 := by
  induction ms generalizing s with
  | nil => exact h
  | cons c ms ih =>
      apply ih
      rw [chatCount_appendLatestChat]
      split
      · rfl
      · exact h

/-- In a store with pairwise-distinct identifiers, filtering for a member's
identifier returns exactly that member. -/
lemma filter_eq_singleton_of_nodup (chats : List ChatTypes) (c : ChatTypes)
    (hnd : (chats.map (fun x => x._id)).Nodup) (hc : c ∈ chats) :
    chats.filter (fun x => x._id = c._id) = [c] := by
  induction chats with
  | nil => cases hc
  | cons a l ih =>
      rw [List.map_cons, List.nodup_cons] at hnd
      rcases List.mem_cons.mp hc with h | h
      · subst h
        rw [List.filter_cons_of_pos (by simp)]
        have hnil : l.filter (fun x => x._id = c._id) = [] := by
          refine List.filter_eq_nil_iff.mpr (fun x hx => ?_)
          simp only [decide_eq_true_eq]
          intro hEq
          exact hnd.1 (hEq ▸ List.mem_map_of_mem _ hx)
      
        rw [hnil]
      · have hne : a._id ≠ c._id := by
          intro hEq
          exact hnd.1 (hEq ▸ List.mem_map_of_mem _ h)
        rw [List.filter_cons_of_neg (by simp [hne])]
        exact ih hnd.2 h

/-- For an envelope matching a loaded record `c` in a store with distinct
identifiers, one invocation moves exactly `c`, unchanged, to the front and
keeps every other record in its previous relative order. -/
lemma runHandler_loaded (chats : List ChatTypes) (msg : MessageTypes) (c : ChatTypes)
    (hnd : (chats.map (fun x => x._id)).Nodup) (hc : c ∈ chats)
    (hid : msg.chatId = some c._id) :
    runHandler chats msg = c :: chats.filter (fun x => x._id ≠ c._id) := by
  rw [runHandler_eq]
  have hmatch : chats.filter (fun x => msg.chatId = some x._id) =
      chats.filter (fun x => x._id = c._id) := by
    refine List.filter_congr (fun x _ => ?_)
    rw [hid, decide_eq_decide]
    exact ⟨fun h => (Option.some.inj h).symm, fun h => congrArg some h.symm⟩
  rw [hmatch, filter_eq_singleton_of_nodup chats c hnd hc]
  rfl

/-- When no record matches, the handler leaves the store unchanged, logs
nothing, and still signals `"Chats"` staleness exactly once. -/
lemma handler_no_match (chats : List ChatTypes) (msg : MessageTypes)
    (hnil : chats.filter (fun c => msg.chatId = some c._id) = []) :
    runHandler chats msg = chats ∧
    (handleRealtimeMessage chats msg).2 = [] ∧
    chatsSignalCount (handleRealtimeMessage chats msg).1 = 1 := by
  refine ⟨?_, rfl, ?_⟩
  · rw [runHandler_eq, hnil]
    rfl
  · rw [handleRealtimeMessage_actions]
    simp [chatsSignalCount, hnil]

/-- Folding the reducer over records drawn from the store never introduces a
record that was not already in the store. -/
lemma foldl_appendLatestChat_subset (chats : List ChatTypes) (ms : List ChatTypes) :
    ∀ s : List ChatTypes, (∀ c ∈ ms, c ∈ chats) → (∀ x ∈ s, x ∈ chats) →
      ∀ x ∈ ms.foldl appendLatestChat s, x ∈ chats := by
  induction ms with
  | nil => exact fun _ _ hs => hs
  | cons c ms ih =>
      intro s hms hs
      refine ih (appendLatestChat s c)
        (fun d hd => hms d (List.mem_cons_of_mem _ hd)) (fun x hx => ?_)
      rcases List.mem_cons.mp hx with rfl | hx'
      · exact hms _ (List.mem_cons_self ..)
      · exact hs x (List.mem_filter.mp hx').1

/-- Unfolding one event of a socket run. -/
lemma sockRun_cons (s : SocketState) (e : SockEv) (evs : List SockEv) :
    sockRun s (e :: evs) = sockRun (sockStep s e) evs := rfl

/-- Once a handler is absent from the bindings, any further event sequence
that never re-binds it delivers no envelope to it. -/
lemma sockRun_off_no_delivery (h : Nat) (evs : List SockEv) :
    ∀ s : SocketState, h ∉ s.bindings → (∀ e ∈ evs, e ≠ SockEv.bind h) →
      ∃ extra, (sockRun s evs).delivered = s.delivered ++ extra ∧
        ∀ p ∈ extra, p.1 ≠ h := by
  induction evs with
  | nil => exact fun s _ _ => ⟨[], by simp [sockRun], by simp⟩
  | cons e evs ih =>
      intro s hb hev
      have hev' : ∀ x ∈ evs, x ≠ SockEv.bind h :=
        fun x hx => hev x (List.mem_cons_of_mem _ hx)
      rw [sockRun_cons]
      cases e with
      | emit m =>
          have hb' : h ∉ (sockStep s (SockEv.emit m)).bindings := hb
          obtain ⟨extra, heq, hne⟩ := ih (sockStep s (SockEv.emit m)) hb' hev'
          refine ⟨s.bindings.map (fun x => (x, m)) ++ extra, ?_, ?_⟩
          · rw [heq]
            simp [sockStep]
          · intro p hp
            rcases List.mem_append.mp hp with hp' | hp'
            · obtain ⟨x, hx, rfl⟩ := List.mem_map.mp hp'
              exact fun hcontra => hb (hcontra ▸ hx)
            · exact hne p hp'
      | bind g =>
          have hg : g ≠ h := by
            intro hEq
            exact hev (SockEv.bind g) (List.mem_cons_self ..) (by rw [hEq])
          have hb' : h ∉ (sockStep s (SockEv.bind g)).bindings := by
            simp only [sockStep, List.mem_append, List.mem_singleton]
            rintro (hmem | hmem)
            · exact hb hmem
            · exact hg hmem.symm
          obtain ⟨extra, heq, hne⟩ := ih (sockStep s (SockEv.bind g)) hb' hev'
          exact ⟨extra, by rw [heq]; rfl, hne⟩
      | unbind g =>
          have hb' : h ∉ (sockStep s (SockEv.unbind g)).bindings := by
            simp only [sockStep, List.mem_filter]
            intro hmem
            exact hb hmem.1
          obtain ⟨extra, heq, hne⟩ := ih (sockStep s (SockEv.unbind g)) hb' hev'
          exact ⟨extra, by rw [heq]; rfl, hne⟩

/-- C1 counterexample: for the spec's own end-to-end scenario (store
`[B(t=5), A(t=1)]` in most-recent-first order, envelope
`{chatId: "A", text: "hi", ts: 10}`), the handler moves record `A` to the
front but no record in the resulting store carries the envelope's text
`"hi"` or timestamp `10`: the envelope's content is not merged into the
matching record's summary view. -/
theorem c1_counterexample :
    (runHandler [⟨"B", "b", 5⟩, ⟨"A", "old", 1⟩]
          ⟨some "A", some "hi", some "s", some 10⟩).all
        (fun r => r.lastMessage ≠ "hi" ∧ r.updatedAt ≠ 10) = true ∧
    runHandler [⟨"B", "b", 5⟩, ⟨"A", "old", 1⟩]
        ⟨some "A", some "hi", some "s", some 10⟩ =
      [⟨"A", "old", 1⟩, ⟨"B", "b", 5⟩] := by decide

/-- C1 (amended): for every envelope whose `chatId` matches a record loaded
in the chat-summary store (with its one-record-per-identifier invariant), the
realtime handler moves that record, with its summary content unchanged, to
the most-recent position, without removing or duplicating the record; the
envelope's text and timestamp are not merged into the record (the content
refresh is delegated to the refetch triggered by the staleness signal). -/
theorem c1_merge_position (chats : List ChatTypes) (msg : MessageTypes)
    (c : ChatTypes) (hnd : (chats.map (fun x => x._id)).Nodup) (hc : c ∈ chats)
    (hid : msg.chatId = some c._id) :
    runHandler chats msg = c :: chats.filter (fun x => x._id ≠ c._id) ∧
    (runHandler chats msg).head? = some c ∧
    chatCount (runHandler chats msg) c._id = 1 := by
  have h1 := runHandler_loaded chats msg c hnd hc hid
  refine ⟨h1, by rw [h1]; rfl, ?_⟩
  rw [h1]
  have h2 := chatCount_appendLatestChat chats c c._id
  rw [appendLatestChat] at h2
  rw [h2, if_pos rfl]

/-- C1 witness: the amended statement instantiated on the spec's end-to-end
scenario. -/
theorem c1_merge_position_witness :
    (([⟨"B", "b", 5⟩, ⟨"A", "old", 1⟩] : List ChatTypes).map
        (fun x => x._id)).Nodup ∧
    (⟨"A", "old", 1⟩ : ChatTypes) ∈ ([⟨"B", "b", 5⟩, ⟨"A", "old", 1⟩] : List ChatTypes) ∧
    (runHandler [⟨"B", "b", 5⟩, ⟨"A", "old", 1⟩]
          ⟨some "A", some "hi", some "s", some 10⟩ =
        ⟨"A", "old", 1⟩ ::
          ([⟨"B", "b", 5⟩, ⟨"A", "old", 1⟩] : List ChatTypes).filter
            (fun x => x._id ≠ "A") ∧
      (runHandler [⟨"B", "b", 5⟩, ⟨"A", "old", 1⟩]
          ⟨some "A", some "hi", some "s", some 10⟩).head? = some ⟨"A", "old", 1⟩ ∧
      chatCount (runHandler [⟨"B", "b", 5⟩, ⟨"A", "old", 1⟩]
          ⟨some "A", some "hi", some "s", some 10⟩) "A" = 1) :=
  ⟨by decide, by decide,
    c1_merge_position [⟨"B", "b", 5⟩, ⟨"A", "old", 1⟩]
      ⟨some "A", some "hi", some "s", some 10⟩ ⟨"A", "old", 1⟩
      (by decide) (by decide) (by decide)⟩

/-- C2: for every envelope delivered to the realtime handler, whether or not
its `chatId` matches a loaded chat, the handler dispatches exactly one
staleness signal for the `"Chats"` tag, and every other action it dispatches
is an `appendLatestChat` of a record already in the store — in particular it
issues no network request itself. -/
theorem c2_one_signal_no_network (chats : List ChatTypes) (msg : MessageTypes) :
    chatsSignalCount (handleRealtimeMessage chats msg).1 = 1 ∧
    ∀ a ∈ (handleRealtimeMessage chats msg).1,
      a = HandlerAction.invalidateTags ["Chats"] ∨
        ∃ c ∈ chats, a = HandlerAction.appendLatest c := by
  rw [handleRealtimeMessage_actions]
  constructor
  · simp [chatsSignalCount]
  · intro a ha
    rcases List.mem_cons.mp ha with h | h
    · exact Or.inl h
    · obtain ⟨c, hc, rfl⟩ := List.mem_map.mp h
      exact Or.inr ⟨c, (List.mem_filter.mp hc).1, rfl⟩

/-- C3: an envelope whose `chatId` is absent from the chat-summary store
leaves the store completely unchanged, logs no error, and still emits exactly
one `"Chats"` staleness signal. -/
theorem c3_unknown_chat_tolerance (chats : List ChatTypes) (msg : MessageTypes)
    (habs : ∀ c ∈ chats, msg.chatId ≠ some c._id) :
    runHandler chats msg = chats ∧
    (handleRealtimeMessage chats msg).2 = [] ∧
    chatsSignalCount (handleRealtimeMessage chats msg).1 = 1 := by
  refine handler_no_match chats msg (List.filter_eq_nil_iff.mpr (fun c hc => ?_))
  simp only [decide_eq_true_eq]
  exact habs c hc

/-- C3 witness: an envelope for the unknown chat `"Z"` against a store
holding only chat `"A"`. -/
theorem c3_unknown_chat_tolerance_witness :
    (∀ c ∈ ([⟨"A", "a", 1⟩] : List ChatTypes),
        (⟨some "Z", some "hi", none, none⟩ : MessageTypes).chatId ≠ some c._id) ∧
    (runHandler [⟨"A", "a", 1⟩] ⟨some "Z", some "hi", none, none⟩ =
        [⟨"A", "a", 1⟩] ∧
      (handleRealtimeMessage [⟨"A", "a", 1⟩] ⟨some "Z", some "hi", none, none⟩).2 = [] ∧
      chatsSignalCount
        (handleRealtimeMessage [⟨"A", "a", 1⟩] ⟨some "Z", some "hi", none, none⟩).1 = 1) :=
  ⟨by decide,
    c3_unknown_chat_tolerance [⟨"A", "a", 1⟩] ⟨some "Z", some "hi", none, none⟩ (by decide)⟩

/-- C4: binding the realtime handler (the mount effect), re-binding (which,
per the effect lifecycle, first runs the previous cleanup), and then running
the final cleanup once leaves zero active bindings for the `"realtime"`
event; after the re-bind exactly one handler is registered, so no duplicate
handler is ever left behind. -/
theorem c4_idempotent_resubscription (h1 h2 : Nat)
    (d : List (Nat × MessageTypes)) :
    (effectRerun (effectBind ⟨[], d⟩ h1) h1 h2).bindings = [h2] ∧
    (effectCleanup (effectRerun (effectBind ⟨[], d⟩ h1) h1 h2) h2).bindings = [] := by
  simp [effectBind, effectCleanup, effectRerun, sockStep]

/-- C5: after processing any sequence of envelopes that all reference an
already-loaded chat identifier `cid` (the store holding, per its invariant,
exactly one record for `cid` beforehand), the store still contains exactly
one record with identifier `cid`. -/
theorem c5_no_duplication (msgs : List MessageTypes) (chats : List ChatTypes)
    (cid : String) (hmsgs : ∀ m ∈ msgs, m.chatId = some cid)
    (hload : chatCount chats cid = 1) :
    chatCount (msgs.foldl runHandler chats) cid = 1 := by
  induction msgs generalizing chats with
  | nil => exact hload
  | cons m msgs ih =>
      refine ih (runHandler chats m)
        (fun x hx => hmsgs x (List.mem_cons_of_mem _ hx)) ?_
      rw [runHandler_eq]
      exact foldl_appendLatestChat_chatCount _ chats cid hload

/-- C5 witness: two envelopes for the loaded chat `"A"` against a two-chat
store. -/
theorem c5_no_duplication_witness :
    (∀ m ∈ ([⟨some "A", some "x", none, some 2⟩, ⟨some "A", none, none, none⟩] :
        List MessageTypes), m.chatId = some "A") ∧
    chatCount ([⟨"B", "b", 5⟩, ⟨"A", "a", 1⟩] : List ChatTypes) "A" = 1 ∧
    chatCount
      (([⟨some "A", some "x", none, some 2⟩, ⟨some "A", none, none, none⟩] :
          List MessageTypes).foldl runHandler [⟨"B", "b", 5⟩, ⟨"A", "a", 1⟩]) "A" = 1 :=
  ⟨by decide, by decide,
    c5_no_duplication [⟨some "A", some "x", none, some 2⟩, ⟨some "A", none, none, none⟩]
      [⟨"B", "b", 5⟩, ⟨"A", "a", 1⟩] "A" (by decide) (by decide)⟩

/-- C6 counterexample: an envelope for the loaded chat `"A"` with a missing
message body is not rejected: the handler still mutates the store (it moves
record `"A"` to the front), logs no warning, and emits its one staleness
signal as usual. -/
theorem c6_counterexample :
    runHandler [⟨"B", "b", 5⟩, ⟨"A", "old", 1⟩] ⟨some "A", none, none, none⟩ ≠
      [⟨"B", "b", 5⟩, ⟨"A", "old", 1⟩] ∧
    runHandler [⟨"B", "b", 5⟩, ⟨"A", "old", 1⟩] ⟨some "A", none, none, none⟩ =
      [⟨"A", "old", 1⟩, ⟨"B", "b", 5⟩] ∧
    (handleRealtimeMessage [⟨"B", "b", 5⟩, ⟨"A", "old", 1⟩]
        ⟨some "A", none, none, none⟩).2 = [] ∧
    chatsSignalCount
      (handleRealtimeMessage [⟨"B", "b", 5⟩, ⟨"A", "old", 1⟩]
        ⟨some "A", none, none, none⟩).1 = 1 := by decide

/-- C6 (amended): for every envelope missing a required field (`chatId` or
message body), the handler rejects nothing and logs no warning: nothing is
logged, the staleness signal is still emitted exactly once, an envelope with
a missing `chatId` matches no record and leaves the store unchanged, an
envelope with a missing body is reconciled exactly as the same envelope with
any body would be (the body is never read), and delivering the envelope
leaves the socket bindings untouched, so the subscription remains active. -/
theorem c6_no_validation (chats : List ChatTypes) (msg : MessageTypes)
    (_hmal : msg.chatId = none ∨ msg.text = none) :
    (handleRealtimeMessage chats msg).2 = [] ∧
    chatsSignalCount (handleRealtimeMessage chats msg).1 = 1 ∧
    (msg.chatId = none → runHandler chats msg = chats) ∧
    (∀ b : Option String,
      handleRealtimeMessage chats ⟨msg.chatId, b, msg.sender, msg.ts⟩ =
        handleRealtimeMessage chats msg) ∧
    ∀ s : SocketState, (sockStep s (SockEv.emit msg)).bindings = s.bindings := by
  refine ⟨rfl, ?_, ?_, fun _ => rfl, fun _ => rfl⟩
  · rw [handleRealtimeMessage_actions]
    simp [chatsSignalCount]
  · intro hnone
    refine (handler_no_match chats msg (List.filter_eq_nil_iff.mpr (fun c hc => ?_))).1
    simp [hnone]

/-- C6 witness: the amended statement instantiated on an envelope for the
loaded chat `"A"` that lacks its message body. -/
theorem c6_no_validation_witness :
    ((⟨some "A", none, some "s", some 4⟩ : MessageTypes).chatId = none ∨
      (⟨some "A", none, some "s", some 4⟩ : MessageTypes).text = none) ∧
    ((handleRealtimeMessage [⟨"B", "b", 5⟩, ⟨"A", "a", 1⟩]
        ⟨some "A", none, some "s", some 4⟩).2 = [] ∧
      chatsSignalCount
        (handleRealtimeMessage [⟨"B", "b", 5⟩, ⟨"A", "a", 1⟩]
          ⟨some "A", none, some "s", some 4⟩).1 = 1 ∧
      ((⟨some "A", none, some "s", some 4⟩ : MessageTypes).chatId = none →
        runHandler [⟨"B", "b", 5⟩, ⟨"A", "a", 1⟩] ⟨some "A", none, some "s", some 4⟩ =
          [⟨"B", "b", 5⟩, ⟨"A", "a", 1⟩]) ∧
      (∀ b : Option String,
        handleRealtimeMessage [⟨"B", "b", 5⟩, ⟨"A", "a", 1⟩]
            ⟨some "A", b, some "s", some 4⟩ =
          handleRealtimeMessage [⟨"B", "b", 5⟩, ⟨"A", "a", 1⟩]
            ⟨some "A", none, some "s", some 4⟩) ∧
      ∀ s : SocketState,
        (sockStep s (SockEv.emit ⟨some "A", none, some "s", some 4⟩)).bindings =
          s.bindings) :=
  ⟨by decide,
    c6_no_validation [⟨"B", "b", 5⟩, ⟨"A", "a", 1⟩]
      ⟨some "A", none, some "s", some 4⟩ (by decide)⟩

/-- C7: after the handler `h` is unbound, any further event sequence that
never re-binds `h` — including the delivery of envelopes already queued at
unbind time — invokes `h` on no envelope, and unbinding is idempotent (a
second unbind of `h`, e.g. issued while a callback cycle is in flight, is a
no-op). -/
theorem c7_unbind_effective (s : SocketState) (h : Nat) (evs : List SockEv)
    (hev : ∀ e ∈ evs, e ≠ SockEv.bind h) :
    (∃ extra,
        (sockRun (effectCleanup s h) evs).delivered = s.delivered ++ extra ∧
        ∀ p ∈ extra, p.1 ≠ h) ∧
    effectCleanup (effectCleanup s h) h = effectCleanup s h := by
  constructor
  · have hb : h ∉ (effectCleanup s h).bindings := by
      simp [effectCleanup, sockStep, List.mem_filter]
    obtain ⟨extra, heq, hne⟩ :=
      sockRun_off_no_delivery h evs (effectCleanup s h) hb hev
    exact ⟨extra, by rw [heq]; rfl, hne⟩
  · simp [effectCleanup, sockStep, List.filter_filter]

/-- C7 witness: handler `7` bound alone, unbound, then two queued envelopes
are delivered; no invocation of `7` is recorded, and the second unbind is a
no-op. -/
theorem c7_unbind_effective_witness :
    (∀ e ∈ ([SockEv.emit ⟨some "A", some "hi", none, none⟩,
        SockEv.emit ⟨some "B", none, none, none⟩] : List SockEv),
      e ≠ SockEv.bind 7) ∧
    ((∃ extra,
        (sockRun (effectCleanup ⟨[7], []⟩ 7)
            [SockEv.emit ⟨some "A", some "hi", none, none⟩,
             SockEv.emit ⟨some "B", none, none, none⟩]).delivered =
          (⟨[7], []⟩ : SocketState).delivered ++ extra ∧
        ∀ p ∈ extra, p.1 ≠ 7) ∧
      effectCleanup (effectCleanup ⟨[7], []⟩ 7) 7 = effectCleanup ⟨[7], []⟩ 7) :=
  ⟨by decide,
    c7_unbind_effective ⟨[7], []⟩ 7
      [SockEv.emit ⟨some "A", some "hi", none, none⟩,
       SockEv.emit ⟨some "B", none, none, none⟩] (by decide)⟩

/-- C8: after the handler processes an envelope for a loaded chat (the store
satisfying its distinct-identifier invariant), the matching record occupies
the front position of the store's activity ordering and the relative order of
all other records is exactly as before the call. -/
theorem c8_ordering_reestablished (chats : List ChatTypes) (msg : MessageTypes)
    (c : ChatTypes) (hnd : (chats.map (fun x => x._id)).Nodup) (hc : c ∈ chats)
    (hid : msg.chatId = some c._id) :
    runHandler chats msg = c :: chats.filter (fun x => x._id ≠ c._id) :=
  runHandler_loaded chats msg c hnd hc hid

/-- C8 witness: a three-chat store where the middle chat `"B"` receives a
message and moves to the front, with `"C"` and `"A"` keeping their relative
order. -/
theorem c8_ordering_reestablished_witness :
    (([⟨"C", "c", 9⟩, ⟨"B", "b", 5⟩, ⟨"A", "a", 1⟩] : List ChatTypes).map
        (fun x => x._id)).Nodup ∧
    (⟨"B", "b", 5⟩ : ChatTypes) ∈
      ([⟨"C", "c", 9⟩, ⟨"B", "b", 5⟩, ⟨"A", "a", 1⟩] : List ChatTypes) ∧
    runHandler [⟨"C", "c", 9⟩, ⟨"B", "b", 5⟩, ⟨"A", "a", 1⟩]
        ⟨some "B", some "hey", none, some 11⟩ =
      ⟨"B", "b", 5⟩ ::
        ([⟨"C", "c", 9⟩, ⟨"B", "b", 5⟩, ⟨"A", "a", 1⟩] : List ChatTypes).filter
          (fun x => x._id ≠ "B") :=
  ⟨by decide, by decide,
    c8_ordering_reestablished [⟨"C", "c", 9⟩, ⟨"B", "b", 5⟩, ⟨"A", "a", 1⟩]
      ⟨some "B", some "hey", none, some 11⟩ ⟨"B", "b", 5⟩
      (by decide) (by decide) (by decide)⟩

/-- C9: for every envelope and every store state the handler completes
normally — its try-block in fact never fails, so no error line is logged —
and were the body ever to fail, the catch-clause turns the failure into an
internal log line instead of re-throwing it, so no exception escapes the
handler. -/
theorem c9_no_escalation (chats : List ChatTypes) (msg : MessageTypes) :
    (∃ acts, handleRealtimeBody chats msg = Except.ok acts ∧
        handleRealtimeMessage chats msg = (acts, [])) ∧
    ∀ e : String, handlerCatch (Except.error e) =
      ([], ["Failed to handle real-time message: " ++ e]) :=
  ⟨⟨_, rfl, rfl⟩, fun _ => rfl⟩

/-- C10: the handler's behaviour depends only on the envelope's `chatId`: two
envelopes agreeing on `chatId` but differing in body, sender or timestamp
produce exactly the same dispatched actions and logs, and every record in the
resulting store already existed in the store before the call — the envelope's
body, sender and timestamp are never written into any chat record. -/
theorem c10_chatId_only (chats : List ChatTypes) (m1 m2 : MessageTypes)
    (h : m1.chatId = m2.chatId) :
    handleRealtimeMessage chats m1 = handleRealtimeMessage chats m2 ∧
    ∀ x ∈ runHandler chats m1, x ∈ chats := by
  constructor
  · simp [handleRealtimeMessage, handleRealtimeBody, h]
  · rw [runHandler_eq]
    exact foldl_appendLatestChat_subset chats _ chats
      (fun c hc => (List.mem_filter.mp hc).1) (fun x hx => hx)

/-- C10 witness: two envelopes for chat `"A"` differing in body, sender and
timestamp, against a one-chat store. -/
theorem c10_chatId_only_witness :
    (⟨some "A", some "x", some "alice", some 1⟩ : MessageTypes).chatId =
      (⟨some "A", some "y", some "bob", some 9⟩ : MessageTypes).chatId ∧
    (handleRealtimeMessage [⟨"A", "a", 1⟩] ⟨some "A", some "x", some "alice", some 1⟩ =
        handleRealtimeMessage [⟨"A", "a", 1⟩] ⟨some "A", some "y", some "bob", some 9⟩ ∧
      ∀ x ∈ runHandler [⟨"A", "a", 1⟩] ⟨some "A", some "x", some "alice", some 1⟩,
        x ∈ ([⟨"A", "a", 1⟩] : List ChatTypes)) :=
  ⟨by decide,
    c10_chatId_only [⟨"A", "a", 1⟩] ⟨some "A", some "x", some "alice", some 1⟩
      ⟨some "A", some "y", some "bob", some 9⟩ (by decide)⟩
